import Mathlib

/-!
Shallow embedding of the fault-tolerant fetch pipeline of `clock_v2_cpp`:
the circuit breaker and HTTP client from `src/http_client.cpp` and the
background-fetch orchestrator from `src/background_manager.cpp`.

Time is modelled in seconds as `Int` (the code uses `std::chrono` seconds
and `time_t`).  Network and decode outcomes are oracles passed as
parameters, so each embedded function is the deterministic control flow of
the corresponding C++ function given those outcomes.
-/

/-- States of `HTTPCircuitBreaker::State` in `src/http_client.h`. -/
inductive CBState where
  | CLOSED
  | OPEN
  | HALF_OPEN
deriving DecidableEq, Repr

/-- Mirror of `std::chrono::steady_clock::time_point::min()` used to
initialise `lastFailureTime` in the breaker constructor. -/
def timePointMin : Int := -(2 ^ 62)

/-- State of `HTTPCircuitBreaker` (`src/http_client.cpp`): the three-state
gate plus its counters and configuration. -/
structure HTTPCircuitBreaker where
  state : CBState
  failureCount : Nat
  successCount : Nat
  failureThreshold : Nat
  successThreshold : Nat
  timeoutSeconds : Int
  lastFailureTime : Int
deriving DecidableEq, Repr

namespace HTTPCircuitBreaker

/-- Constructor `HTTPCircuitBreaker::HTTPCircuitBreaker` (lines 7-19):
starts CLOSED with zero counters and `lastFailureTime` at the minimum
representable time point. -/
def mkBreaker (failureThreshold successThreshold : Nat)
    (timeoutSeconds : Int) : HTTPCircuitBreaker :=
  { state := .CLOSED
    failureCount := 0
    successCount := 0
    failureThreshold := failureThreshold
    successThreshold := successThreshold
    timeoutSeconds := timeoutSeconds
    lastFailureTime := timePointMin }

/-- Embedding of `HTTPCircuitBreaker::isTimeoutExpired` (lines 21-26):
`elapsed.count() >= timeoutSeconds`. -/
def isTimeoutExpired (b : HTTPCircuitBreaker) (now : Int) : Bool :=
  now - b.lastFailureTime ≥ b.timeoutSeconds

/-- Embedding of `HTTPCircuitBreaker::shouldAttempt` (lines 28-50).  Returns the updated
breaker together with the boolean the C++ function returns; the only
mutation is OPEN → HALF_OPEN (with `successCount := 0`) when the timeout
has expired. -/
def shouldAttempt (b : HTTPCircuitBreaker) (now : Int) :
    HTTPCircuitBreaker × Bool :=
  match b.state with
  | .CLOSED => (b, true)
  | .OPEN =>
      if b.isTimeoutExpired now then
        ({ b with state := .HALF_OPEN, successCount := 0 }, true)
      else
        (b, false)
  | .HALF_OPEN => (b, true)

/-- Embedding of `HTTPCircuitBreaker::recordSuccess` (lines 52-70). -/
def recordSuccess (b : HTTPCircuitBreaker) : HTTPCircuitBreaker :=
  match b.state with
  | .HALF_OPEN =>
      let successes := b.successCount + 1
      if successes ≥ b.successThreshold then
        { b with state := .CLOSED, failureCount := 0, successCount := 0 }
      else
        { b with successCount := successes }
  | .CLOSED => { b with failureCount := 0 }
  | .OPEN => b

/-- Embedding of `HTTPCircuitBreaker::recordFailure` (lines 72-90): reads the state,
stores `lastFailureTime := now`, unconditionally increments
`failureCount`, then transitions CLOSED → OPEN on threshold breach or
HALF_OPEN → OPEN (resetting `failureCount` to 0). -/
def recordFailure (b : HTTPCircuitBreaker) (now : Int) : HTTPCircuitBreaker :=
  let failures := b.failureCount + 1
  let b1 := { b with lastFailureTime := now, failureCount := failures }
  if b.state = .CLOSED ∧ failures ≥ b.failureThreshold then
    { b1 with state := .OPEN }
  else if b.state = .HALF_OPEN then
    { b1 with state := .OPEN, failureCount := 0 }
  else
    b1

/-- Fold of `recordFailure` over a list of failure times, used to state
properties about consecutive failures. -/
def recordFailures (b : HTTPCircuitBreaker) (ts : List Int) :
    HTTPCircuitBreaker :=
  ts.foldl recordFailure b

end HTTPCircuitBreaker

example :
    ((HTTPCircuitBreaker.mkBreaker 3 2 60).recordFailure 5).state =
      CBState.CLOSED := by decide

example :
    (HTTPCircuitBreaker.recordFailures (HTTPCircuitBreaker.mkBreaker 3 2 60)
      [1, 2, 3]).state = CBState.OPEN := by decide

example :
    ((HTTPCircuitBreaker.recordFailures (HTTPCircuitBreaker.mkBreaker 3 2 60)
      [1, 2, 3]).shouldAttempt 10).2 = false := by decide

example :
    ((HTTPCircuitBreaker.recordFailures (HTTPCircuitBreaker.mkBreaker 3 2 60)
      [1, 2, 3]).shouldAttempt 63).2 = true := by decide

/-- Mirror of `HTTPClient::Response` (`src/http_client.h`): initialised as
`Response{false, 0, "", ""}` at the top of `get`/`post`. -/
structure Response where
  success : Bool
  statusCode : Int
  body : String
  error : String
deriving DecidableEq, Repr

/-- Outcome of the underlying `httplib` call, an oracle parameter of the
embedding: `res` truthy with a status and body, `res` falsy with a
transport error string, or a thrown `std::exception` with a message. -/
inductive TransportOutcome where
  | response (status : Int) (body : String)
  | transportError (msg : String)
  | thrown (msg : String)
deriving DecidableEq, Repr

/-- State of `HTTPClient` (`src/http_client.cpp`): host, port and SSL
settings do not affect the modelled control flow, so only the owned
circuit breaker is kept. -/
structure HTTPClient where
  circuitBreaker : HTTPCircuitBreaker
deriving DecidableEq, Repr

/-- Result of one embedded `get`/`post` call: the returned `Response`, the
updated client, and whether any network I/O was attempted (false exactly
on the circuit-breaker-open early return). -/
structure CallResult where
  response : Response
  client : HTTPClient
  networkAttempted : Bool
deriving DecidableEq, Repr

namespace HTTPClient

/-- Constructor `HTTPClient::HTTPClient` (lines 102-106): the owned
breaker is `circuitBreaker(3, 2, 60)`. -/
def mkClient : HTTPClient :=
  { circuitBreaker := HTTPCircuitBreaker.mkBreaker 3 2 60 }

/-- Embedding of `HTTPClient::get` (lines 120-173).  The SSL and non-SSL branches have
identical control flow, so one embedding covers both; the `httplib`
call's outcome is the `outcome` oracle. -/
def get (c : HTTPClient) (now : Int) (outcome : TransportOutcome) :
    CallResult :=
  let response : Response :=
    { success := false, statusCode := 0, body := "", error := "" }
  let (b1, allow) := c.circuitBreaker.shouldAttempt now
  if ¬ allow then
    { response := { response with error := "Circuit breaker is OPEN" }
      client := { circuitBreaker := b1 }
      networkAttempted := false }
  else
    match outcome with
    | .response status body =>
        { response :=
            { success := true, statusCode := status, body := body
              error := "" }
          client := { circuitBreaker := b1.recordSuccess }
          networkAttempted := true }
    | .transportError msg =>
        { response := { response with error := msg }
          client := { circuitBreaker := b1.recordFailure now }
          networkAttempted := true }
    | .thrown msg =>
        { response := { response with error := msg }
          client := { circuitBreaker := b1.recordFailure now }
          networkAttempted := true }

/-- Embedding of `HTTPClient::post` (lines 175-234).  The request body, content type
and headers only feed the network call, which the `outcome` oracle
replaces; the control flow is identical to `get`. -/
def post (c : HTTPClient) (_body _contentType : String) (now : Int)
    (outcome : TransportOutcome) : CallResult :=
  let response : Response :=
    { success := false, statusCode := 0, body := "", error := "" }
  let (b1, allow) := c.circuitBreaker.shouldAttempt now
  if ¬ allow then
    { response := { response with error := "Circuit breaker is OPEN" }
      client := { circuitBreaker := b1 }
      networkAttempted := false }
  else
    match outcome with
    | .response status body =>
        { response :=
            { success := true, statusCode := status, body := body
              error := "" }
          client := { circuitBreaker := b1.recordSuccess }
          networkAttempted := true }
    | .transportError msg =>
        { response := { response with error := msg }
          client := { circuitBreaker := b1.recordFailure now }
          networkAttempted := true }
    | .thrown msg =>
        { response := { response with error := msg }
          client := { circuitBreaker := b1.recordFailure now }
          networkAttempted := true }

end HTTPClient

example :
    (HTTPClient.mkClient.get 0 (.response 200 "hi")).response.success =
      true := by decide

example :
    ((HTTPClient.mkClient.get 0
      (.transportError "timeout")).client).circuitBreaker.failureCount =
      1 := by decide

/-- Decoded image artifact (`SDL_Surface` in the source); modelled
abstractly by dimensions and a tag so that distinct artifacts can be
told apart. -/
structure Surface where
  w : Int
  h : Int
  tag : Nat
deriving DecidableEq, Repr

/-- Outcome of `json::parse(response.body)` followed by
`data[0]["fullUrl"].get<std::string>()` in
`BackgroundManager::fetchImageUrl`, an oracle parameter of the embedding:
a URL, a `json::parse_error`, or another exception. -/
inductive ParseOutcome where
  | ok (url : String)
  | parseFailed (msg : String)
  | otherFailed (msg : String)
deriving DecidableEq, Repr

/-- Outcome of `BackgroundManager::loadImage` (the stage-2 payload
retrieval and decode), an oracle parameter of the embedding: a decoded
surface or a null return. -/
inductive LoadOutcome where
  | loaded (img : Surface)
  | loadFailed
deriving DecidableEq, Repr

/-- Mirror of `BackgroundManager::MAX_THREADS` (`src/background_manager.h` line 52). -/
def MAX_THREADS : Nat := 1

/-- Mirror of `BackgroundManager::THREAD_TIMEOUT` in seconds
(`src/background_manager.h` line 56). -/
def THREAD_TIMEOUT : Int := 60

/-- Mirror of `BACKGROUND_UPDATE_INTERVAL` (`src/constants.cpp` line 19): one hour
in seconds. -/
def BACKGROUND_UPDATE_INTERVAL : Int := 60 * 60

/-- State of `BackgroundManager` (`src/background_manager.h`): the fields
the fetch pipeline reads or writes.  SDL textures and the renderer cache
are presentation-only and omitted.  `fetchThreadJoinable` and
`backgroundThreadJoinable` model `std::thread::joinable()` on the two
thread slots. -/
structure BackgroundManager where
  currentImage : Option Surface
  pendingImage : Option Surface
  pendingImageReady : Bool
  lastUpdate : Int
  lastFailedAttempt : Int
  consecutiveFailures : Nat
  error : String
  isLoading : Bool
  isFetching : Bool
  shouldStopThread : Bool
  threadCount : Nat
  lastThreadStart : Int
  fetchThreadJoinable : Bool
  backgroundThreadJoinable : Bool
  httpClient : HTTPClient
deriving DecidableEq, Repr

namespace BackgroundManager

/-- Constructor `BackgroundManager::BackgroundManager`
(`src/background_manager.cpp` lines 18-32) together with the in-class
initialisers of `src/background_manager.h`. -/
def mkManager : BackgroundManager :=
  { currentImage := none
    pendingImage := none
    pendingImageReady := false
    lastUpdate := 0
    lastFailedAttempt := 0
    consecutiveFailures := 0
    error := ""
    isLoading := false
    isFetching := false
    shouldStopThread := false
    threadCount := 0
    lastThreadStart := 0
    fetchThreadJoinable := false
    backgroundThreadJoinable := false
    httpClient := HTTPClient.mkClient }

/-- Embedding of `BackgroundManager::fetchImageUrl` (lines 97-133): one breaker-guarded
GET against the resolver endpoint, then a status check, then JSON
extraction; every failure sets `error` and returns the empty string. -/
def fetchImageUrl (m : BackgroundManager) (now : Int)
    (outcome : TransportOutcome) (parse : String → ParseOutcome) :
    String × BackgroundManager :=
  let r := m.httpClient.get now outcome
  let m1 := { m with httpClient := r.client }
  if ¬ r.response.success then
    ("", { m1 with
             error := "Failed to fetch image URL: " ++ r.response.error })
  else if r.response.statusCode ≠ 200 then
    ("", { m1 with
             error := "HTTP status: " ++ toString r.response.statusCode })
  else
    match parse r.response.body with
    | .ok url => (url, m1)
    | .parseFailed msg =>
        ("", { m1 with error := "JSON parse error: " ++ msg })
    | .otherFailed msg =>
        ("", { m1 with error := "Error processing JSON: " ++ msg })

/-- Slot write performed by the stage-2 worker on success
(`BackgroundManager::loadImageAsync` lines 351-366): under the lock, any
undrained `pendingImage` is freed and overwritten, and the ready flag is
set. -/
def writeResult (m : BackgroundManager) (img : Surface) :
    BackgroundManager :=
  { m with pendingImage := some img, pendingImageReady := true }

/-- Embedding of `BackgroundManager::loadImageAsync` (lines 289-375), sequenced with
its worker running to completion: the `isLoading` and `threadCount`
guards, the join of the previous background thread (resetting
`shouldStopThread` after the join), then the worker body whose
`loadImage` outcome is the `outcome` oracle.  `isLoading` and
`threadCount` return to their prior values once the worker finishes. -/
def loadImageAsyncRun (m : BackgroundManager) (now : Int)
    (outcome : LoadOutcome) : BackgroundManager :=
  if m.isLoading then m
  else if m.threadCount ≥ MAX_THREADS then m
  else
    let m1 := { m with
                  shouldStopThread :=
                    m.backgroundThreadJoinable = false ∧ m.shouldStopThread
                  lastThreadStart := now
                  backgroundThreadJoinable := true }
    if m1.shouldStopThread then m1
    else
      match outcome with
      | .loaded img => m1.writeResult img
      | .loadFailed => m1

/-- Embedding of `BackgroundManager::fetchImageUrlAsync` (lines 135-198), sequenced
with its worker (and the stage-2 worker it spawns) running to
completion: skip when `isFetching`; otherwise run stage 1, and on a
non-empty URL run stage 2 and then reset `consecutiveFailures := 0`, or
on an empty URL increment `consecutiveFailures` and stamp
`lastFailedAttempt`. -/
def fetchCycleRun (m : BackgroundManager) (now : Int)
    (outcome : TransportOutcome) (parse : String → ParseOutcome)
    (load : LoadOutcome) : BackgroundManager :=
  if m.isFetching then m
  else
    let m0 := { m with fetchThreadJoinable := true }
    if m0.shouldStopThread then m0
    else
      let (url, m1) := m0.fetchImageUrl now outcome parse
      if m1.shouldStopThread then m1
      else if url ≠ "" then
        let m2 := m1.loadImageAsyncRun now load
        { m2 with consecutiveFailures := 0 }
      else
        { m1 with
            consecutiveFailures := m1.consecutiveFailures + 1
            lastFailedAttempt := now }

/-- Backoff delay computed in `BackgroundManager::update` (line 511):
`std::min(30 * consecutiveFailures, 600)`. -/
def backoffDelay (k : Nat) : Nat := min (30 * k) 600

/-- Embedding of `BackgroundManager::update` (lines 485-525): the hung-thread check
(which resets `isLoading` after `THREAD_TIMEOUT`), the
`!isLoading && !isFetching` and refresh-interval gate, and the backoff
gate.  The boolean is true exactly when `fetchImageUrlAsync` is invoked
(line 523), i.e. when a new fetch attempt starts this tick. -/
def update (m : BackgroundManager) (now : Int) :
    BackgroundManager × Bool :=
  let m1 :=
    if m.isLoading ∧ m.lastThreadStart > 0 ∧
        now - m.lastThreadStart > THREAD_TIMEOUT then
      { m with shouldStopThread := true, isLoading := false }
    else m
  if ¬ m1.isLoading ∧ ¬ m1.isFetching ∧
      (now - m1.lastUpdate > BACKGROUND_UPDATE_INTERVAL ∨
        m1.currentImage = none) then
    if m1.consecutiveFailures > 0 ∧
        now - m1.lastFailedAttempt <
          (backoffDelay m1.consecutiveFailures : Int) then
      (m1, false)
    else
      ({ m1 with lastUpdate := now }, true)
  else
    (m1, false)

/-- Drain step of `BackgroundManager::updateTextures` (lines 387-401):
under the lock, if `pendingImageReady && pendingImage` the pending
surface is taken, both slot fields are cleared and `currentImage` is
replaced; otherwise nothing happens.  Returns the drained artifact, if
any. -/
def drainResult (m : BackgroundManager) :
    Option Surface × BackgroundManager :=
  if m.pendingImageReady ∧ m.pendingImage.isSome then
    (m.pendingImage,
      { m with
          pendingImage := none
          pendingImageReady := false
          currentImage := m.pendingImage })
  else
    (none, m)

end BackgroundManager

/-- Thread-lifecycle actions taken by the two async starters, used to
state the join-before-spawn discipline. -/
inductive ThreadAction where
  | joinFetch
  | spawnFetch
  | joinLoad
  | spawnLoad
deriving DecidableEq, Repr

/-- Thread actions of `BackgroundManager::fetchImageUrlAsync`
(lines 135-152): skip when `isFetching`; otherwise join the previous
fetch thread when joinable, then construct the new one. -/
def fetchAsyncActions (m : BackgroundManager) : List ThreadAction :=
  if m.isFetching then []
  else
    (if m.fetchThreadJoinable then [ThreadAction.joinFetch] else []) ++
      [ThreadAction.spawnFetch]

/-- Thread actions of `BackgroundManager::loadImageAsync`
(lines 289-327): skip when `isLoading` or at the thread cap; otherwise
join the previous background thread when joinable, then construct the
new one. -/
def loadAsyncActions (m : BackgroundManager) : List ThreadAction :=
  if m.isLoading then []
  else if m.threadCount ≥ MAX_THREADS then []
  else
    (if m.backgroundThreadJoinable then [ThreadAction.joinLoad] else []) ++
      [ThreadAction.spawnLoad]

/-- Operations a caller can perform on the breaker, used to state the
transition characterisation. -/
inductive BreakerOp where
  | attempt (now : Int)
  | success
  | failure (now : Int)
deriving DecidableEq, Repr

/-- Applies one breaker operation, discarding the boolean of
`shouldAttempt`. -/
def applyOp (b : HTTPCircuitBreaker) : BreakerOp → HTTPCircuitBreaker
  | .attempt now => (b.shouldAttempt now).1
  | .success => b.recordSuccess
  | .failure now => b.recordFailure now

/-- Folding `recordFailure` over failure times keeps a CLOSED breaker
CLOSED and adds the number of failures to `failureCount`, as long as the
threshold is not reached; the configuration fields never change. -/
lemma recordFailures_closed (ts : List Int) :
    ∀ b : HTTPCircuitBreaker, b.state = CBState.CLOSED →
      b.failureCount + ts.length < b.failureThreshold →
      (HTTPCircuitBreaker.recordFailures b ts).state = CBState.CLOSED ∧
      (HTTPCircuitBreaker.recordFailures b ts).failureCount =
        b.failureCount + ts.length ∧
      (HTTPCircuitBreaker.recordFailures b ts).failureThreshold =
        b.failureThreshold ∧
      (HTTPCircuitBreaker.recordFailures b ts).timeoutSeconds =
        b.timeoutSeconds := by
  induction ts with
  | nil =>
      intro b hb _
      simp [HTTPCircuitBreaker.recordFailures, hb]
  | cons t ts ih =>
      intro b hb hlt
      have hstep : b.recordFailure t =
          { b with lastFailureTime := t,
                   failureCount := b.failureCount + 1 } := by
        unfold HTTPCircuitBreaker.recordFailure
        have h1 : ¬ (b.state = CBState.CLOSED ∧
            b.failureCount + 1 ≥ b.failureThreshold) := by
          simp only [List.length_cons] at hlt
          intro hc
          omega
        have h2 : ¬ b.state = CBState.HALF_OPEN := by
          rw [hb]; intro hc; cases hc
        simp [h1, h2]
      have hrw : HTTPCircuitBreaker.recordFailures b (t :: ts) =
          HTTPCircuitBreaker.recordFailures (b.recordFailure t) ts := rfl
      rw [hrw, hstep]
      have := ih { b with lastFailureTime := t,
                          failureCount := b.failureCount + 1 }
        (by simp [hb])
        (by simp only [List.length_cons] at hlt; simp; omega)
      simp only [List.length_cons]
      refine ⟨this.1, ?_, ?_, ?_⟩
      · rw [this.2.1]; simp; omega
      · rw [this.2.2.1]
      · rw [this.2.2.2]

/-- C2.  Starting CLOSED with zero failures and threshold n ≥ 1: after
n - 1 recorded failures the breaker is still CLOSED and shouldAttempt
returns true; one more recorded failure moves it to OPEN, and while the
open timeout has not elapsed since that last failure, shouldAttempt
returns false. -/
theorem breaker_threshold_trip
    (n s : Nat) (tmo : Int) (hn : 1 ≤ n)
    (ts : List Int) (hlen : ts.length = n - 1)
    (tn now2 : Int) (hnow : now2 - tn < tmo) :
    (HTTPCircuitBreaker.recordFailures
        (HTTPCircuitBreaker.mkBreaker n s tmo) ts).state = CBState.CLOSED ∧
    ((HTTPCircuitBreaker.recordFailures
        (HTTPCircuitBreaker.mkBreaker n s tmo) ts).shouldAttempt now2).2 =
      true ∧
    ((HTTPCircuitBreaker.recordFailures
        (HTTPCircuitBreaker.mkBreaker n s tmo) ts).recordFailure tn).state =
      CBState.OPEN ∧
    (HTTPCircuitBreaker.shouldAttempt
      ((HTTPCircuitBreaker.recordFailures
        (HTTPCircuitBreaker.mkBreaker n s tmo) ts).recordFailure tn)
      now2).2 = false := by
  have hbase := recordFailures_closed ts (HTTPCircuitBreaker.mkBreaker n s tmo)
    (by simp [HTTPCircuitBreaker.mkBreaker])
    (by simp [HTTPCircuitBreaker.mkBreaker, hlen]; omega)
  set bPrev := HTTPCircuitBreaker.recordFailures
    (HTTPCircuitBreaker.mkBreaker n s tmo) ts with hbPrev
  obtain ⟨hstate, hcount, hthr, htime⟩ := hbase
  simp [HTTPCircuitBreaker.mkBreaker] at hcount hthr htime
  have htrip : (bPrev.recordFailure tn).state = CBState.OPEN ∧
      (bPrev.recordFailure tn).lastFailureTime = tn ∧
      (bPrev.recordFailure tn).timeoutSeconds = tmo := by
    unfold HTTPCircuitBreaker.recordFailure
    have hcond : bPrev.state = CBState.CLOSED ∧
        bPrev.failureCount + 1 ≥ bPrev.failureThreshold := by
      refine ⟨hstate, ?_⟩
      rw [hcount, hthr]
      omega
    simp [hcond, htime]
  refine ⟨hstate, ?_, htrip.1, ?_⟩
  · unfold HTTPCircuitBreaker.shouldAttempt
    rw [hstate]
  · unfold HTTPCircuitBreaker.shouldAttempt
    rw [htrip.1]
    have hexp : ((bPrev.recordFailure tn).isTimeoutExpired now2) = false := by
      unfold HTTPCircuitBreaker.isTimeoutExpired
      rw [htrip.2.1, htrip.2.2]
      simp
      omega
    simp [hexp]

/-- Witness for C2 at n = 2, failures at times 5 then 6, probed at
time 7 with a 60-second open timeout. -/
theorem breaker_threshold_trip_witness :
    (HTTPCircuitBreaker.recordFailures
        (HTTPCircuitBreaker.mkBreaker 2 2 60) [5]).state = CBState.CLOSED ∧
    ((HTTPCircuitBreaker.recordFailures
        (HTTPCircuitBreaker.mkBreaker 2 2 60) [5]).shouldAttempt 7).2 =
      true ∧
    ((HTTPCircuitBreaker.recordFailures
        (HTTPCircuitBreaker.mkBreaker 2 2 60) [5]).recordFailure 6).state =
      CBState.OPEN ∧
    (HTTPCircuitBreaker.shouldAttempt
      ((HTTPCircuitBreaker.recordFailures
        (HTTPCircuitBreaker.mkBreaker 2 2 60) [5]).recordFailure 6)
      7).2 = false :=
  breaker_threshold_trip 2 2 60 (by decide) [5] (by decide)
    6 7 (by decide)

/-- C3.  One-step transition characterisation of the breaker: for every
state and every operation, either the state is unchanged, or the
transition is one of CLOSED→OPEN (recordFailure bringing failureCount to
the threshold), OPEN→HALF_OPEN (shouldAttempt with the open timeout
elapsed, successCount reset), HALF_OPEN→CLOSED (recordSuccess reaching
successThreshold, both counters reset), or HALF_OPEN→OPEN (any
recordFailure, failureCount reset).  Since this holds for each step, it
holds along every call sequence. -/
theorem breaker_transitions_only (b : HTTPCircuitBreaker) (op : BreakerOp) :
    (applyOp b op).state = b.state ∨
    (b.state = CBState.CLOSED ∧ (applyOp b op).state = CBState.OPEN ∧
      (∃ t, op = BreakerOp.failure t) ∧
      (applyOp b op).failureCount = b.failureCount + 1 ∧
      b.failureThreshold ≤ (applyOp b op).failureCount) ∨
    (b.state = CBState.OPEN ∧ (applyOp b op).state = CBState.HALF_OPEN ∧
      (∃ t, op = BreakerOp.attempt t ∧
        b.timeoutSeconds ≤ t - b.lastFailureTime) ∧
      (applyOp b op).successCount = 0) ∨
    (b.state = CBState.HALF_OPEN ∧ (applyOp b op).state = CBState.CLOSED ∧
      op = BreakerOp.success ∧ b.successThreshold ≤ b.successCount + 1 ∧
      (applyOp b op).failureCount = 0 ∧ (applyOp b op).successCount = 0) ∨
    (b.state = CBState.HALF_OPEN ∧ (applyOp b op).state = CBState.OPEN ∧
      (∃ t, op = BreakerOp.failure t) ∧
      (applyOp b op).failureCount = 0) := by
  cases op with
  | attempt t =>
      cases hb : b.state with
      | CLOSED =>
          left
          simp [applyOp, HTTPCircuitBreaker.shouldAttempt, hb]
      | OPEN =>
          by_cases hexp : b.isTimeoutExpired t = true
          · right; right; left
            refine ⟨rfl, ?_, ⟨t, rfl, ?_⟩, ?_⟩
            · simp [applyOp, HTTPCircuitBreaker.shouldAttempt, hb, hexp]
            · unfold HTTPCircuitBreaker.isTimeoutExpired at hexp
              simp at hexp
              omega
            · simp [applyOp, HTTPCircuitBreaker.shouldAttempt, hb, hexp]
          · left
            simp [applyOp, HTTPCircuitBreaker.shouldAttempt, hb, hexp]
      | HALF_OPEN =>
          left
          simp [applyOp, HTTPCircuitBreaker.shouldAttempt, hb]
  | success =>
      cases hb : b.state with
      | CLOSED =>
          left
          simp [applyOp, HTTPCircuitBreaker.recordSuccess, hb]
      | OPEN =>
          left
          simp [applyOp, HTTPCircuitBreaker.recordSuccess, hb]
      | HALF_OPEN =>
          by_cases hs : b.successCount + 1 ≥ b.successThreshold
          · right; right; right; left
            refine ⟨rfl, ?_, rfl, hs, ?_, ?_⟩ <;>
              simp [applyOp, HTTPCircuitBreaker.recordSuccess, hb, hs]
          · left
            simp [applyOp, HTTPCircuitBreaker.recordSuccess, hb, hs]
  | failure t =>
      cases hb : b.state with
      | CLOSED =>
          by_cases hf : b.failureCount + 1 ≥ b.failureThreshold
          · right; left
            have hcond : b.state = CBState.CLOSED ∧
                b.failureCount + 1 ≥ b.failureThreshold := ⟨hb, hf⟩
            refine ⟨rfl, ?_, ⟨t, rfl⟩, ?_, ?_⟩ <;>
              simp [applyOp, HTTPCircuitBreaker.recordFailure, hcond, hf]
          · left
            have hcond : ¬ (b.state = CBState.CLOSED ∧
                b.failureCount + 1 ≥ b.failureThreshold) := by
              intro hc; exact hf hc.2
            have hcond2 : ¬ b.state = CBState.HALF_OPEN := by
              rw [hb]; intro hc; cases hc
            simp [applyOp, HTTPCircuitBreaker.recordFailure, hcond, hcond2,
              hb, hf]
      | OPEN =>
          left
          have hcond : ¬ (b.state = CBState.CLOSED ∧
              b.failureCount + 1 ≥ b.failureThreshold) := by
            rw [hb]; intro hc; cases hc.1
          have hcond2 : ¬ b.state = CBState.HALF_OPEN := by
            rw [hb]; intro hc; cases hc
          simp [applyOp, HTTPCircuitBreaker.recordFailure, hcond, hcond2, hb]
      | HALF_OPEN =>
          right; right; right; right
          have hcond : ¬ (b.state = CBState.CLOSED ∧
              b.failureCount + 1 ≥ b.failureThreshold) := by
            rw [hb]; intro hc; cases hc.1
          refine ⟨rfl, ?_, ⟨t, rfl⟩, ?_⟩ <;>
            simp [applyOp, HTTPCircuitBreaker.recordFailure, hcond, hb]

/-- Concrete OPEN breaker used to exhibit the behaviour of
`recordFailure` in the OPEN state. -/
def bOpenC9 : HTTPCircuitBreaker :=
  { state := CBState.OPEN
    failureCount := 3
    successCount := 1
    failureThreshold := 3
    successThreshold := 2
    timeoutSeconds := 60
    lastFailureTime := 10 }

/-- C9 counterexample.  A recordFailure call in the OPEN state does not
leave failureCount unchanged: the increment at the top of
`HTTPCircuitBreaker::recordFailure` is unconditional, so the count moves
from 3 to 4 here. -/
theorem recordFailure_open_changes_failureCount :
    bOpenC9.state = CBState.OPEN ∧
    bOpenC9.failureCount = 3 ∧
    (bOpenC9.recordFailure 20).failureCount = 4 := by decide

/-- C9 amended.  For every recordFailure call made in the OPEN state, the
state stays OPEN, successCount and the configuration are unchanged,
lastFailureTime is set to now, and failureCount is incremented by one
(rather than left unchanged). -/
theorem recordFailure_open_frame (b : HTTPCircuitBreaker) (now : Int)
    (h : b.state = CBState.OPEN) :
    (b.recordFailure now).state = CBState.OPEN ∧
    (b.recordFailure now).successCount = b.successCount ∧
    (b.recordFailure now).failureThreshold = b.failureThreshold ∧
    (b.recordFailure now).successThreshold = b.successThreshold ∧
    (b.recordFailure now).timeoutSeconds = b.timeoutSeconds ∧
    (b.recordFailure now).lastFailureTime = now ∧
    (b.recordFailure now).failureCount = b.failureCount + 1 := by
  have hcond : ¬ (b.state = CBState.CLOSED ∧
      b.failureCount + 1 ≥ b.failureThreshold) := by
    rw [h]; intro hc; cases hc.1
  have hcond2 : ¬ b.state = CBState.HALF_OPEN := by
    rw [h]; intro hc; cases hc
  refine ⟨?_, ?_, ?_, ?_, ?_, ?_, ?_⟩ <;>
    simp [HTTPCircuitBreaker.recordFailure, hcond, hcond2, h]

/-- Witness for the amended C9 at the concrete OPEN breaker above. -/
theorem recordFailure_open_frame_witness :
    (bOpenC9.recordFailure 20).state = CBState.OPEN ∧
    (bOpenC9.recordFailure 20).successCount = bOpenC9.successCount ∧
    (bOpenC9.recordFailure 20).failureThreshold =
      bOpenC9.failureThreshold ∧
    (bOpenC9.recordFailure 20).successThreshold =
      bOpenC9.successThreshold ∧
    (bOpenC9.recordFailure 20).timeoutSeconds = bOpenC9.timeoutSeconds ∧
    (bOpenC9.recordFailure 20).lastFailureTime = 20 ∧
    (bOpenC9.recordFailure 20).failureCount = bOpenC9.failureCount + 1 :=
  recordFailure_open_frame bOpenC9 20 (by decide)

/-- When `shouldAttempt` rejects, it leaves the breaker unchanged: the
only mutating branch (OPEN with the timeout expired) returns true. -/
lemma shouldAttempt_false_frame (b : HTTPCircuitBreaker) (now : Int)
    (h : (b.shouldAttempt now).2 = false) :
    (b.shouldAttempt now).1 = b := by
  unfold HTTPCircuitBreaker.shouldAttempt at h ⊢
  cases hb : b.state with
  | CLOSED => simp [hb] at h
  | OPEN =>
      simp only [hb] at h ⊢
      by_cases hexp : b.isTimeoutExpired now = true
      · simp [hexp] at h
      · simp [hexp]
  | HALF_OPEN => simp [hb] at h

/-- C4.  Characterisation of `HTTPClient::get` and `HTTPClient::post`:
when the breaker rejects, the call returns success = false with the
circuit-breaker-open error, performs no network I/O and leaves the
client (hence the breaker) untouched; when the breaker allows the call,
success = true holds exactly when an HTTP response was received (any
status), in which case statusCode/body come from the response and
recordSuccess is applied; a transport failure or exception yields
success = false with the error text and recordFailure applied.  post has
the same control flow as get. -/
theorem client_success_iff_response (c : HTTPClient) (now : Int)
    (outcome : TransportOutcome) (rbody rct : String) :
    ((c.circuitBreaker.shouldAttempt now).2 = false →
      (c.get now outcome).response.success = false ∧
      (c.get now outcome).response.error = "Circuit breaker is OPEN" ∧
      (c.get now outcome).networkAttempted = false ∧
      (c.get now outcome).client = c) ∧
    ((c.circuitBreaker.shouldAttempt now).2 = true →
      ((c.get now outcome).response.success = true ↔
        ∃ st bd, outcome = TransportOutcome.response st bd) ∧
      (∀ st bd, outcome = TransportOutcome.response st bd →
        (c.get now outcome).response.statusCode = st ∧
        (c.get now outcome).response.body = bd ∧
        (c.get now outcome).client.circuitBreaker =
          ((c.circuitBreaker.shouldAttempt now).1).recordSuccess ∧
        (c.get now outcome).networkAttempted = true) ∧
      (∀ msg, (outcome = TransportOutcome.transportError msg ∨
          outcome = TransportOutcome.thrown msg) →
        (c.get now outcome).response.success = false ∧
        (c.get now outcome).response.error = msg ∧
        (c.get now outcome).client.circuitBreaker =
          ((c.circuitBreaker.shouldAttempt now).1).recordFailure now ∧
        (c.get now outcome).networkAttempted = true)) ∧
    c.post rbody rct now outcome = c.get now outcome := by
  have hpost : c.post rbody rct now outcome = c.get now outcome := by
    unfold HTTPClient.post HTTPClient.get
    rfl
  refine ⟨?_, ?_, hpost⟩
  · intro hreject
    have hframe := shouldAttempt_false_frame c.circuitBreaker now hreject
    have hc : { circuitBreaker := (c.circuitBreaker.shouldAttempt now).1 } =
        c := by
      rw [hframe]
    unfold HTTPClient.get
    rcases hpair : c.circuitBreaker.shouldAttempt now with ⟨b1, allow⟩
    rw [hpair] at hreject
    simp at hreject
    subst hreject
    rw [hpair] at hc
    simp [hc]
  · intro hallow
    unfold HTTPClient.get
    rcases hpair : c.circuitBreaker.shouldAttempt now with ⟨b1, allow⟩
    rw [hpair] at hallow
    simp at hallow
    subst hallow
    refine ⟨?_, ?_, ?_⟩
    · cases outcome <;> simp
    · intro st bd hout
      subst hout
      simp [hpair]
    · intro msg hout
      rcases hout with hout | hout <;>
        · subst hout
          simp [hpair]

/-- Witness for C4: a fresh client (breaker CLOSED, so shouldAttempt is
true) receiving an HTTP 404 response still reports success = true with
that status code. -/
theorem client_success_iff_response_witness :
    (HTTPClient.mkClient.get 0
      (TransportOutcome.response 404 "nf")).response.success = true ∧
    (HTTPClient.mkClient.get 0
      (TransportOutcome.response 404 "nf")).response.statusCode = 404 ∧
    HTTPClient.mkClient.post "b" "text/plain" 0
      (TransportOutcome.response 404 "nf") =
      HTTPClient.mkClient.get 0 (TransportOutcome.response 404 "nf") := by
  have h := client_success_iff_response HTTPClient.mkClient 0
    (TransportOutcome.response 404 "nf") "b" "text/plain"
  have hallow : (HTTPClient.mkClient.circuitBreaker.shouldAttempt 0).2 =
      true := by decide
  have h2 := h.2.1 hallow
  exact ⟨h2.1.mpr ⟨404, "nf", rfl⟩, (h2.2.1 404 "nf" rfl).1, h.2.2⟩

/-- C10.  Every `get` or `post` result with success = false carries the
zero-initialised statusCode 0 and empty body: the failure paths
(circuit-open rejection, transport failure, exception) only ever set the
error field of the `Response{false, 0, "", ""}` initialiser. -/
theorem client_failure_zero_fields (c : HTTPClient) (now : Int)
    (outcome : TransportOutcome) (rbody rct : String) :
    ((c.get now outcome).response.success = false →
      (c.get now outcome).response.statusCode = 0 ∧
      (c.get now outcome).response.body = "") ∧
    ((c.post rbody rct now outcome).response.success = false →
      (c.post rbody rct now outcome).response.statusCode = 0 ∧
      (c.post rbody rct now outcome).response.body = "") := by
  have hpost : c.post rbody rct now outcome = c.get now outcome := by
    unfold HTTPClient.post HTTPClient.get
    rfl
  rw [hpost]
  refine ⟨?_, fun h => ?_⟩ <;>
  · unfold HTTPClient.get
    rcases hpair : c.circuitBreaker.shouldAttempt now with ⟨b1, allow⟩
    cases allow <;> cases outcome <;> simp_all [HTTPClient.get, hpair]

/-- Witness for C10: a transport failure on a fresh client gives
success = false with statusCode 0 and an empty body. -/
theorem client_failure_zero_fields_witness :
    (CallResult.response (HTTPClient.mkClient.get 3
      (TransportOutcome.transportError "Connection refused"))).statusCode =
      0 ∧
    (CallResult.response (HTTPClient.mkClient.get 3
      (TransportOutcome.transportError "Connection refused"))).body = "" :=
  (client_failure_zero_fields HTTPClient.mkClient 3
    (TransportOutcome.transportError "Connection refused") "b" "ct").1
    (by decide)

/-- Concrete orchestrator state with two recorded consecutive failures
at time 0, used to witness the backoff characterisation. -/
def mBackoffC5 : BackgroundManager :=
  { BackgroundManager.mkManager with consecutiveFailures := 2 }

/-- C5.  With no worker active and a refresh due, `update` starts a new
attempt exactly when no backoff wait is required: with k > 0 consecutive
failures the required wait since `lastFailedAttempt` is
`backoffDelay k = min (30 * k) 600` seconds, which is non-decreasing in
k, and with k = 0 no wait is imposed. -/
theorem backoff_wait_characterisation (m : BackgroundManager) (now : Int)
    (hL : m.isLoading = false) (hF : m.isFetching = false)
    (hdue : now - m.lastUpdate > BACKGROUND_UPDATE_INTERVAL ∨
      m.currentImage = none) :
    ((m.update now).2 = true ↔
      (m.consecutiveFailures = 0 ∨
        now - m.lastFailedAttempt ≥
          (BackgroundManager.backoffDelay m.consecutiveFailures : Int))) ∧
    (∀ k k' : Nat, k ≤ k' →
      BackgroundManager.backoffDelay k ≤ BackgroundManager.backoffDelay k') ∧
    BackgroundManager.backoffDelay 0 = 0 ∧
    (∀ k : Nat, BackgroundManager.backoffDelay k = min (30 * k) 600) := by
  refine ⟨?_, ?_, rfl, fun _ => rfl⟩
  · unfold BackgroundManager.update
    have hhung : ¬ (m.isLoading = true ∧ m.lastThreadStart > 0 ∧
        now - m.lastThreadStart > THREAD_TIMEOUT) := by
      rw [hL]; intro hc; cases hc.1
    have hgate : (¬ m.isLoading = true ∧ ¬ m.isFetching = true ∧
        (now - m.lastUpdate > BACKGROUND_UPDATE_INTERVAL ∨
          m.currentImage = none)) := by
      rw [hL, hF]
      exact ⟨by simp, by simp, hdue⟩
    simp only [hhung, if_false, if_neg hhung]
    rw [if_pos hgate]
    by_cases hback : m.consecutiveFailures > 0 ∧
        now - m.lastFailedAttempt <
          (BackgroundManager.backoffDelay m.consecutiveFailures : Int)
    · rw [if_pos hback]
      simp
      omega
    · rw [if_neg hback]
      simp
      push_neg at hback
      by_cases hk : m.consecutiveFailures = 0
      · exact Or.inl hk
      · exact Or.inr (hback (by omega))
  · intro k k' hk
    unfold BackgroundManager.backoffDelay
    omega

/-- Witness for C5: two consecutive failures recorded at time 0 impose a
60-second wait, so polling at time 70 starts a new attempt. -/
theorem backoff_wait_characterisation_witness :
    ((mBackoffC5.update 70).2 = true ↔
      (mBackoffC5.consecutiveFailures = 0 ∨
        70 - mBackoffC5.lastFailedAttempt ≥
          (BackgroundManager.backoffDelay
            mBackoffC5.consecutiveFailures : Int))) ∧
    (∀ k k' : Nat, k ≤ k' →
      BackgroundManager.backoffDelay k ≤ BackgroundManager.backoffDelay k') ∧
    BackgroundManager.backoffDelay 0 = 0 ∧
    (∀ k : Nat, BackgroundManager.backoffDelay k = min (30 * k) 600) :=
  backoff_wait_characterisation mBackoffC5 70
    (by decide) (by decide) (Or.inr (by decide))

/-- Slot consistency: the ready flag agrees with occupancy of the
pending-image slot.  It holds initially and is maintained by
`writeResult` (sets both) and `drainResult` (clears both or leaves both
as they are). -/
def SlotInv (m : BackgroundManager) : Prop :=
  m.pendingImageReady = m.pendingImage.isSome

/-- Artifact returned by one drain of the pending-result slot. -/
def drainedValue (m : BackgroundManager) : Option Surface :=
  (m.drainResult).1

/-- Orchestrator state after one drain of the pending-result slot. -/
def afterDrain (m : BackgroundManager) : BackgroundManager :=
  (m.drainResult).2

/-- Two worker writes into the slot with no intervening drain. -/
def doubleWrite (m : BackgroundManager) (a1 a2 : Surface) :
    BackgroundManager :=
  (m.writeResult a1).writeResult a2

/-- C7.  Last-write-wins slot: after two worker writes with no
intervening drain, draining returns only the second artifact; the
post-drain slot is empty with the ready flag cleared, so a second drain
with no intervening write returns nothing and changes nothing; and from
any consistent state, every drain leaves the slot empty with the ready
flag cleared. -/
theorem drain_last_write_wins (m : BackgroundManager) (a1 a2 : Surface)
    (hinv : SlotInv m) :
    (drainedValue (doubleWrite m a1 a2) = some a2 ∧
      (afterDrain (doubleWrite m a1 a2)).pendingImage = none ∧
      (afterDrain (doubleWrite m a1 a2)).pendingImageReady = false ∧
      drainedValue (afterDrain (doubleWrite m a1 a2)) = none ∧
      afterDrain (afterDrain (doubleWrite m a1 a2)) =
        afterDrain (doubleWrite m a1 a2)) ∧
    (afterDrain m).pendingImage = none ∧
    (afterDrain m).pendingImageReady = false := by
  constructor
  · have hready : (doubleWrite m a1 a2).pendingImageReady = true ∧
        (doubleWrite m a1 a2).pendingImage = some a2 := by
      simp [doubleWrite, BackgroundManager.writeResult]
    unfold drainedValue afterDrain BackgroundManager.drainResult
    simp [hready.1, hready.2]
  · unfold afterDrain BackgroundManager.drainResult
    by_cases hr : m.pendingImageReady = true ∧ m.pendingImage.isSome = true
    · simp [hr]
    · rw [if_neg hr]
      unfold SlotInv at hinv
      have hnone : m.pendingImage = none := by
        cases hp : m.pendingImage with
        | none => rfl
        | some a =>
            exfalso
            apply hr
            rw [hinv, hp]
            simp
      rw [hinv, hnone]
      simp

/-- Witness for C7 with two concrete artifacts written into a fresh
manager's slot. -/
theorem drain_last_write_wins_witness :
    (drainedValue (doubleWrite BackgroundManager.mkManager ⟨4, 3, 1⟩
        ⟨8, 6, 2⟩) = some ⟨8, 6, 2⟩ ∧
      (afterDrain (doubleWrite BackgroundManager.mkManager ⟨4, 3, 1⟩
        ⟨8, 6, 2⟩)).pendingImage = none ∧
      (afterDrain (doubleWrite BackgroundManager.mkManager ⟨4, 3, 1⟩
        ⟨8, 6, 2⟩)).pendingImageReady = false ∧
      drainedValue (afterDrain (doubleWrite BackgroundManager.mkManager
        ⟨4, 3, 1⟩ ⟨8, 6, 2⟩)) = none ∧
      afterDrain (afterDrain (doubleWrite BackgroundManager.mkManager
        ⟨4, 3, 1⟩ ⟨8, 6, 2⟩)) =
        afterDrain (doubleWrite BackgroundManager.mkManager ⟨4, 3, 1⟩
          ⟨8, 6, 2⟩)) ∧
    (afterDrain BackgroundManager.mkManager).pendingImage = none ∧
    (afterDrain BackgroundManager.mkManager).pendingImageReady = false :=
  drain_last_write_wins BackgroundManager.mkManager ⟨4, 3, 1⟩ ⟨8, 6, 2⟩ rfl

/-- A breaker in CLOSED with zero failureCount is a fixed point of
`recordSuccess` (the CLOSED branch only stores 0 into failureCount). -/
lemma recordSuccess_closed_zero (b : HTTPCircuitBreaker)
    (hs : b.state = CBState.CLOSED) (hf : b.failureCount = 0) :
    b.recordSuccess = b := by
  cases b with
  | mk st fc sc ft sth ts lt =>
      simp at hs hf
      subst hs
      subst hf
      simp [HTTPCircuitBreaker.recordSuccess]

/-- Orchestrator state after one full fetch cycle whose resolver stage
received an HTTP 200 response with the given body. -/
def cycleRun200 (m : BackgroundManager) (now : Int) (rbody : String)
    (parse : String → ParseOutcome) (load : LoadOutcome) :
    BackgroundManager :=
  m.fetchCycleRun now (TransportOutcome.response 200 rbody) parse load

/-- C8.  When the resolver returns HTTP 200 with a body that fails JSON
parsing, and the orchestrator starts with a CLOSED breaker with zero
failureCount and zero consecutiveFailures, a full fetch cycle leaves the
HTTP client (hence the breaker: still CLOSED, failureCount still 0)
completely unchanged, while consecutiveFailures becomes 1 and
lastFailedAttempt is stamped with the cycle time. -/
theorem resolver_unparsable_body_is_logical_failure
    (m : BackgroundManager) (now : Int) (rbody msg : String)
    (parse : String → ParseOutcome) (load : LoadOutcome)
    (hb : m.httpClient.circuitBreaker.state = CBState.CLOSED)
    (hfc : m.httpClient.circuitBreaker.failureCount = 0)
    (hcf : m.consecutiveFailures = 0)
    (hstop : m.shouldStopThread = false)
    (hfetch : m.isFetching = false)
    (hparse : parse rbody = ParseOutcome.parseFailed msg) :
    (cycleRun200 m now rbody parse load).httpClient = m.httpClient ∧
    (cycleRun200 m now rbody parse load).httpClient.circuitBreaker.state =
      CBState.CLOSED ∧
    (cycleRun200 m now rbody parse
      load).httpClient.circuitBreaker.failureCount = 0 ∧
    (cycleRun200 m now rbody parse load).consecutiveFailures = 1 ∧
    (cycleRun200 m now rbody parse load).lastFailedAttempt = now := by
  have hattempt : m.httpClient.circuitBreaker.shouldAttempt now =
      (m.httpClient.circuitBreaker, true) := by
    unfold HTTPCircuitBreaker.shouldAttempt
    rw [hb]
  have hsucc := recordSuccess_closed_zero m.httpClient.circuitBreaker hb hfc
  have hget : m.httpClient.get now (TransportOutcome.response 200 rbody) =
      { response :=
          { success := true, statusCode := 200, body := rbody, error := "" }
        client := m.httpClient
        networkAttempted := true } := by
    unfold HTTPClient.get
    rw [hattempt]
    simp [hsucc]
  simp [cycleRun200, BackgroundManager.fetchCycleRun,
    BackgroundManager.fetchImageUrl, hget, hparse, hfetch, hstop, hcf,
    hb, hfc]

/-- Witness for C8: a fresh manager, a cycle at time 5, the resolver
answering 200 with a junk body that the JSON layer rejects. -/
theorem resolver_unparsable_body_witness :
    (cycleRun200 BackgroundManager.mkManager 5 "junk"
      (fun _ => ParseOutcome.parseFailed "bad token")
      LoadOutcome.loadFailed).httpClient =
        BackgroundManager.mkManager.httpClient ∧
    (cycleRun200 BackgroundManager.mkManager 5 "junk"
      (fun _ => ParseOutcome.parseFailed "bad token")
      LoadOutcome.loadFailed).httpClient.circuitBreaker.state =
        CBState.CLOSED ∧
    (cycleRun200 BackgroundManager.mkManager 5 "junk"
      (fun _ => ParseOutcome.parseFailed "bad token")
      LoadOutcome.loadFailed).httpClient.circuitBreaker.failureCount = 0 ∧
    (cycleRun200 BackgroundManager.mkManager 5 "junk"
      (fun _ => ParseOutcome.parseFailed "bad token")
      LoadOutcome.loadFailed).consecutiveFailures = 1 ∧
    (cycleRun200 BackgroundManager.mkManager 5 "junk"
      (fun _ => ParseOutcome.parseFailed "bad token")
      LoadOutcome.loadFailed).lastFailedAttempt = 5 :=
  resolver_unparsable_body_is_logical_failure BackgroundManager.mkManager 5
    "junk" "bad token" (fun _ => ParseOutcome.parseFailed "bad token")
    LoadOutcome.loadFailed rfl rfl rfl rfl rfl rfl

/-- Concrete orchestrator state with the background load worker active
(`isLoading` set, thread slot occupied) whose worker started at time 1. -/
def mHungC6 : BackgroundManager :=
  { BackgroundManager.mkManager with
      isLoading := true
      backgroundThreadJoinable := true
      threadCount := 1
      lastThreadStart := 1 }

/-- C6 counterexample.  Polling at time 100 — more than THREAD_TIMEOUT
(60 s) after the active worker started — spawns a new fetch worker even
though `isLoading` is still true: the hung-thread path of
`BackgroundManager::update` resets the flag and proceeds while the old
worker is still running. -/
theorem poll_spawns_during_hung_worker :
    mHungC6.isLoading = true ∧ (mHungC6.update 100).2 = true := by decide

/-- C6 amended.  Polling never starts a second worker while one is
active, unless the active load worker has been running longer than
THREAD_TIMEOUT (the hung-worker escape); and both async starters follow
a strict join-before-spawn discipline: their thread-action traces are
either empty, or a single spawn when no previous thread is joinable, or
a join of the previous thread immediately followed by the spawn. -/
theorem single_worker_guard (m : BackgroundManager) (now : Int)
    (h : m.isFetching = true ∨
      (m.isLoading = true ∧
        ¬ (m.lastThreadStart > 0 ∧
            now - m.lastThreadStart > THREAD_TIMEOUT))) :
    (m.update now).2 = false ∧
    (∀ m' : BackgroundManager,
      fetchAsyncActions m' = [] ∨
      (fetchAsyncActions m' = [ThreadAction.spawnFetch] ∧
        m'.fetchThreadJoinable = false) ∨
      fetchAsyncActions m' = [ThreadAction.joinFetch,
        ThreadAction.spawnFetch]) ∧
    (∀ m' : BackgroundManager,
      loadAsyncActions m' = [] ∨
      (loadAsyncActions m' = [ThreadAction.spawnLoad] ∧
        m'.backgroundThreadJoinable = false) ∨
      loadAsyncActions m' = [ThreadAction.joinLoad,
        ThreadAction.spawnLoad]) ∧
    (m.isFetching = true → fetchAsyncActions m = []) := by
  refine ⟨?_, ?_, ?_, ?_⟩
  · unfold BackgroundManager.update
    rcases h with hF | ⟨hL, hnot⟩
    · have hm1 : ∀ m1 : BackgroundManager, m1.isFetching = true →
          (if ¬ m1.isLoading = true ∧ ¬ m1.isFetching = true ∧
              (now - m1.lastUpdate > BACKGROUND_UPDATE_INTERVAL ∨
                m1.currentImage = none) then
            (if m1.consecutiveFailures > 0 ∧
                now - m1.lastFailedAttempt <
                  (BackgroundManager.backoffDelay m1.consecutiveFailures :
                    Int) then
              (m1, false)
            else
              ({ m1 with lastUpdate := now }, true))
          else
            (m1, false)).2 = false := by
        intro m1 hf1
        rw [if_neg]
        intro hc
        exact hc.2.1 hf1
      by_cases hhung : m.isLoading = true ∧ m.lastThreadStart > 0 ∧
          now - m.lastThreadStart > THREAD_TIMEOUT
      · rw [if_pos hhung]
        exact hm1 _ hF
      · rw [if_neg hhung]
        exact hm1 _ hF
    · have hhung : ¬ (m.isLoading = true ∧ m.lastThreadStart > 0 ∧
          now - m.lastThreadStart > THREAD_TIMEOUT) := by
        intro hc
        exact hnot hc.2
      rw [if_neg hhung]
      rw [if_neg]
      intro hc
      exact hc.1 hL
  · intro m'
    unfold fetchAsyncActions
    by_cases hf : m'.isFetching = true
    · left; simp [hf]
    · by_cases hj : m'.fetchThreadJoinable = true
      · right; right; simp [hf, hj]
      · right; left
        constructor
        · simp [hf, hj]
        · simp at hj
          exact hj
  · intro m'
    unfold loadAsyncActions
    by_cases hl : m'.isLoading = true
    · left; simp [hl]
    · by_cases hc : m'.threadCount ≥ MAX_THREADS
      · left; simp [hl, hc]
      · by_cases hj : m'.backgroundThreadJoinable = true
        · right; right; simp [hl, hc, hj]
        · right; left
          constructor
          · simp [hl, hc, hj]
          · simp at hj
            exact hj
  · intro hf
    unfold fetchAsyncActions
    simp [hf]

/-- Witness for the amended C6: with a fetch worker active and the
timestamps at time 10 (well inside the timeout), polling starts
nothing. -/
theorem single_worker_guard_witness :
    ((({ BackgroundManager.mkManager with isFetching := true } :
        BackgroundManager).update 10).2 = false ∧
      (∀ m' : BackgroundManager,
        fetchAsyncActions m' = [] ∨
        (fetchAsyncActions m' = [ThreadAction.spawnFetch] ∧
          m'.fetchThreadJoinable = false) ∨
        fetchAsyncActions m' = [ThreadAction.joinFetch,
          ThreadAction.spawnFetch]) ∧
      (∀ m' : BackgroundManager,
        loadAsyncActions m' = [] ∨
        (loadAsyncActions m' = [ThreadAction.spawnLoad] ∧
          m'.backgroundThreadJoinable = false) ∨
        loadAsyncActions m' = [ThreadAction.joinLoad,
          ThreadAction.spawnLoad]) ∧
      (({ BackgroundManager.mkManager with isFetching := true } :
          BackgroundManager).isFetching = true →
        fetchAsyncActions ({ BackgroundManager.mkManager with
          isFetching := true } : BackgroundManager) = [])) :=
  single_worker_guard
    { BackgroundManager.mkManager with isFetching := true } 10
    (Or.inl rfl)

/-- Concrete orchestrator state with two prior consecutive failures,
used to run a cycle whose resolver stage succeeds and whose payload
stage fails. -/
def mC1 : BackgroundManager :=
  { BackgroundManager.mkManager with
      consecutiveFailures := 2
      lastFailedAttempt := 50 }

/-- C1.  Evaluation of a full fetch cycle at the failing input: starting
from 2 consecutive failures, the resolver stage succeeds (HTTP 200,
parsable body with a URL) but the payload stage fails
(`loadImage` returns null), yet `consecutiveFailures` ends at 0 — the
code resets it right after spawning stage 2, so a payload-stage failure
is neither counted nor does it prevent the reset, contrary to the
claim's reset-only-on-end-to-end-success behaviour.  For comparison, the
same cycle with a successful payload stage also ends at 0 and fills the
pending-result slot. -/
theorem stage2_failure_still_resets_consecutiveFailures :
    mC1.consecutiveFailures = 2 ∧
    (mC1.fetchCycleRun 100 (TransportOutcome.response 200 "feedjson")
      (fun _ => ParseOutcome.ok "https://img.example/a.jpg")
      LoadOutcome.loadFailed).consecutiveFailures = 0 ∧
    (mC1.fetchCycleRun 100 (TransportOutcome.response 200 "feedjson")
      (fun _ => ParseOutcome.ok "https://img.example/a.jpg")
      LoadOutcome.loadFailed).pendingImageReady = false ∧
    (mC1.fetchCycleRun 100 (TransportOutcome.response 200 "feedjson")
      (fun _ => ParseOutcome.ok "https://img.example/a.jpg")
      (LoadOutcome.loaded ⟨4, 3, 7⟩)).consecutiveFailures = 0 ∧
    (mC1.fetchCycleRun 100 (TransportOutcome.response 200 "feedjson")
      (fun _ => ParseOutcome.ok "https://img.example/a.jpg")
      (LoadOutcome.loaded ⟨4, 3, 7⟩)).pendingImage = some ⟨4, 3, 7⟩ := by
  refine ⟨rfl, ?_, ?_, ?_, ?_⟩ <;> decide
